import Mathlib

/-!
# SkillSwap server: rating ledger, aggregation and authorization model

Shallow embedding of the repository's rating subsystem.  The repository
contains two parallel stacks operating on the ratings ledger:

* the Sequelize controller (`createRating` together with the helper
  `updateUserAverageRating` in `src/controllers/skillsController.js`), which
  writes the denormalized summary columns `averageRating` / `totalRatings`
  on the users table; and
* the raw-SQL express router (`POST /api/ratings`, `GET /api/ratings/:userId`
  and `DELETE /api/ratings/:id` in `src/routes/admin.js`, ratings section),
  which works against the SQL schema of `src/unnamed/part_000` with its
  `UNIQUE(reviewer_id, rated_user_id)` constraint, plus the
  `requireOwnerOrAdmin` middleware of `src/unnamed/part_002`.

State is a list of users and a list of rating rows; handlers are pure state
transformers returning an outcome (the HTTP response class) and the new state.
-/

/-- A JavaScript number as it matters here: either `NaN` (e.g. produced by
`parseFloat(null)`) or an exact rational value. -/
inductive JsNum where
  | nan : JsNum
  | val : ℚ → JsNum
deriving Repr, DecidableEq

/-- `parseFloat` applied to a SQL aggregate cell that is either NULL or a
numeric value: `parseFloat(null)` is `NaN`. -/
def parseFloatOpt : Option ℚ → JsNum
  | none => .nan
  | some q => .val q

/-- `x.toFixed(2)`: `NaN` stays `NaN`, a rational is rounded to two decimal
places (the stored `DECIMAL(3,2)` value). -/
def toFixed2 : JsNum → JsNum
  | .nan => .nan
  | .val q => .val (((round (q * 100) : ℤ) : ℚ) / 100)

/-- `x.toFixed(1)`: rounding to one decimal place, used by the read routes. -/
def toFixed1 : JsNum → JsNum
  | .nan => .nan
  | .val q => .val (((round (q * 10) : ℤ) : ℚ) / 10)

/-- SQL `AVG` over a list of integer star values: NULL on the empty set. -/
def sqlAvg (l : List ℕ) : Option ℚ :=
  if l.isEmpty then none else some ((l.sum : ℚ) / l.length)

/-- One row of the ratings ledger.  The Sequelize model (`Rating.js`) calls the
author `raterId`; the SQL schema calls the same column `reviewer_id`.  The
optional `skillId` column exists only in the Sequelize model. -/
structure RatingRecord where
  id : ℕ
  raterId : ℕ
  ratedUserId : ℕ
  skillId : Option ℕ
  rating : ℕ
  comment : Option String
deriving Repr, DecidableEq

/-- One row of the users table, restricted to the fields the rating subsystem
reads or writes: `role`/`active` (raw-SQL stack) and the denormalized summary
columns `averageRating`/`totalRatings` (Sequelize stack). -/
structure UserRow where
  id : ℕ
  role : String
  active : Bool
  averageRating : JsNum
  totalRatings : ℕ
deriving Repr, DecidableEq

/-- The store shared by both stacks: users, skills (only their ids matter —
they are the target of the `skillId` foreign key), the ratings ledger, and
the next surrogate id handed out by an insert. -/
structure ServerState where
  users : List UserRow
  skills : List ℕ
  ratings : List RatingRecord
  nextRatingId : ℕ
deriving Repr, DecidableEq

/-- Star values of the ledger rows addressed to `userId`
(`WHERE ratedUserId = userId`). -/
def ratingsFor (s : ServerState) (userId : ℕ) : List ℕ :=
  (s.ratings.filter (fun r => r.ratedUserId == userId)).map (fun r => r.rating)

/-- `updateUserAverageRating` from `skillsController.js`: one aggregate SELECT
(`AVG(rating)`, `COUNT(rating)` over the rows rated `userId`; it always yields
exactly one result row, so the `result.length > 0` guard in the source always
passes), then `User.update` with `parseFloat(averageRating).toFixed(2)` and
`parseInt(totalRatings)` on every user row matching the id. -/
def updateUserAverageRating (userId : ℕ) (s : ServerState) : ServerState :=
  let stars := ratingsFor s userId
  let averageRating := sqlAvg stars
  let totalRatings := stars.length
  { s with
    users := s.users.map (fun u =>
      if u.id == userId then
        { u with
          averageRating := toFixed2 (parseFloatOpt averageRating),
          totalRatings := totalRatings }
      else u) }

/-- Request body accepted by the Sequelize `createRating` controller (after zod
validation: ids positive, rating an integer in `[1,5]`, `skillId` optional). -/
structure SeqRatingBody where
  ratedUserId : ℕ
  skillId : Option ℕ
  rating : ℕ
  comment : Option String
deriving Repr, DecidableEq

/-- Response classes of the Sequelize `createRating` controller. -/
inductive SeqCreateOutcome where
  | selfRating : SeqCreateOutcome
  | duplicateRating : SeqCreateOutcome
  | created : ℕ → SeqCreateOutcome
  | internalError : SeqCreateOutcome
deriving Repr, DecidableEq

/-- The `where` clause of the duplicate-check `findOne` in the Sequelize
controller: `raterId`, `ratedUserId`, and — only when the request body carries
a (positive, hence truthy) `skillId` — the spread `skillId` condition. -/
def seqDupMatch (raterId : ℕ) (body : SeqRatingBody) (r : RatingRecord) : Bool :=
  r.raterId == raterId && r.ratedUserId == body.ratedUserId &&
    (match body.skillId with
     | none => true
     | some sk => r.skillId == some sk)

/-- `INSERT INTO ratings` subject to the table's
`UNIQUE(reviewer_id, rated_user_id)` constraint (`src/unnamed/part_000`):
`none` models the ConstraintViolation thrown when a row with the same
`(reviewer_id, rated_user_id)` pair is already committed, whatever its skill
scope. -/
def pgInsertRating (ledger : List RatingRecord) (r : RatingRecord) :
    Option (List RatingRecord) :=
  if ledger.any (fun q => q.raterId == r.raterId && q.ratedUserId == r.ratedUserId)
  then none
  else some (ledger ++ [r])

/-- `Rating.create` against the shared ratings table: the insert throws
(`none`) when a foreign key fails — `raterId` and `ratedUserId` reference
`users(id)` and a present `skillId` references `skills(id)` (`Rating.js`) —
or when the table's `UNIQUE(reviewer_id, rated_user_id)` constraint already
holds a row for the pair; otherwise the row is appended and the next
surrogate id advances. -/
def ratingCreate (raterId : ℕ) (body : SeqRatingBody) (s : ServerState) :
    Option ServerState :=
  if (s.users.filter (fun u => u.id == raterId)).isEmpty then none
  else if (s.users.filter (fun u => u.id == body.ratedUserId)).isEmpty then
    none
  else if (match body.skillId with
           | none => false
           | some sk => (s.skills.filter (fun k => k == sk)).isEmpty) then
    none
  else
    match pgInsertRating s.ratings
      { id := s.nextRatingId, raterId := raterId,
        ratedUserId := body.ratedUserId, skillId := body.skillId,
        rating := body.rating, comment := body.comment } with
    | none => none
    | some l =>
      some { s with ratings := l, nextRatingId := s.nextRatingId + 1 }

/-- `createRating` from `skillsController.js`: self-rating check, application
level duplicate `findOne`, then `Rating.create` — any storage failure of the
insert (a foreign key on the rater, the target or the skill, or the ratings
table's unique constraint) throws and reaches the generic `next(error)`
handler as a 500 — then the synchronous `updateUserAverageRating` before the
201 response. -/
def createRating (raterId : ℕ) (body : SeqRatingBody) (s : ServerState) :
    SeqCreateOutcome × ServerState :=
  if body.ratedUserId == raterId then (.selfRating, s)
  else if (s.ratings.find? (seqDupMatch raterId body)).isSome then
    (.duplicateRating, s)
  else
    match ratingCreate raterId body s with
    | none => (.internalError, s)
    | some inserted =>
      (.created s.nextRatingId,
       updateUserAverageRating body.ratedUserId inserted)

/-- Request body accepted by the raw-SQL `POST /api/ratings` route (after
express-validator: `rated_user_id ≥ 1`, `rating ∈ [1,5]`). -/
structure PgRatingBody where
  rated_user_id : ℕ
  rating : ℕ
  comment : Option String
deriving Repr, DecidableEq

/-- Response classes of the raw-SQL `POST /api/ratings` route. -/
inductive PgCreateOutcome where
  | selfRating : PgCreateOutcome
  | targetNotFound : PgCreateOutcome
  | duplicateRating : PgCreateOutcome
  | created : ℕ → PgCreateOutcome
  | internalError : PgCreateOutcome
deriving Repr, DecidableEq

/-- Tests whether an outcome is the 201 success case. -/
def PgCreateOutcome.isCreated : PgCreateOutcome → Bool
  | .created _ => true
  | _ => false

/-- `POST /api/ratings` from the raw-SQL ratings router, with the ledger as
seen by the duplicate read-check (`checkLedger`) separated from the ledger the
`INSERT` runs against (`insertLedger`).  Sequentially the two coincide
(`createRatingRoute` below); a racing insert that commits between the
read-check and the `INSERT` is modelled by `insertLedger` holding the racing
row.  The steps mirror the source: self-rating check (400), active-target
check (404), duplicate read-check (409), `INSERT` (201) — any error thrown by
the `INSERT`, a unique-constraint violation included, reaches the generic
catch and is answered as a 500 internal error. -/
def createRatingRouteAt (user : UserRow) (body : PgRatingBody)
    (users : List UserRow) (checkLedger insertLedger : List RatingRecord)
    (nextId : ℕ) : PgCreateOutcome × List RatingRecord :=
  if user.id == body.rated_user_id then (.selfRating, insertLedger)
  else if (users.filter (fun u => u.id == body.rated_user_id && u.active)).isEmpty
  then (.targetNotFound, insertLedger)
  else if !(checkLedger.filter (fun q =>
      q.raterId == user.id && q.ratedUserId == body.rated_user_id)).isEmpty
  then (.duplicateRating, insertLedger)
  else
    match pgInsertRating insertLedger
      { id := nextId, raterId := user.id, ratedUserId := body.rated_user_id,
        skillId := none, rating := body.rating, comment := body.comment } with
    | none => (.internalError, insertLedger)
    | some l => (.created nextId, l)

/-- The sequential (single-request) run of `POST /api/ratings`: read-check and
`INSERT` see the same ledger. -/
def createRatingRoute (user : UserRow) (body : PgRatingBody) (s : ServerState) :
    PgCreateOutcome × ServerState :=
  let r := createRatingRouteAt user body s.users s.ratings s.ratings s.nextRatingId
  (r.1,
   { s with
     ratings := r.2,
     nextRatingId :=
       if r.1.isCreated then s.nextRatingId + 1 else s.nextRatingId })

/-- Response classes of `DELETE /api/ratings/:id`. -/
inductive DeleteOutcome where
  | notFound : DeleteOutcome
  | forbidden : DeleteOutcome
  | ok : DeleteOutcome
deriving Repr, DecidableEq

/-- `DELETE /api/ratings/:id` from the raw-SQL ratings router: fetch
`reviewer_id` of the row (404 when absent), reject unless the caller is an
admin or the reviewer (403), then delete the row. -/
def deleteRatingRoute (user : UserRow) (id : ℕ) (s : ServerState) :
    DeleteOutcome × ServerState :=
  match s.ratings.find? (fun r => r.id == id) with
  | none => (.notFound, s)
  | some r =>
    if user.role != "admin" && r.raterId != user.id then (.forbidden, s)
    else (.ok, { s with ratings := s.ratings.filter (fun q => !(q.id == id)) })

/-- `requireOwnerOrAdmin` middleware (`src/unnamed/part_002`): the request
proceeds iff the principal is an admin or its id equals the resource id. -/
def requireOwnerOrAdmin (role : String) (userId resourceId : ℕ) : Bool :=
  role == "admin" || userId == resourceId

/-- The `pagination` object returned by `GET /api/ratings/:userId`.  JavaScript
`Math.ceil(total / limit)` with `limit = 0` yields `Infinity`, modelled as
`none`. -/
structure PageInfo where
  page : ℤ
  limit : ℤ
  total : ℕ
  totalPages : Option ℤ
deriving Repr, DecidableEq

/-- `Math.ceil(a / b)` over JavaScript numbers for integer `a`, `b`: `none`
models the infinite value produced by division by zero. -/
def jsCeilDiv (a b : ℤ) : Option ℤ :=
  if b == 0 then none else some ⌈(a : ℚ) / b⌉

/-- `SELECT ... LIMIT l OFFSET o`: Postgres rejects a negative `LIMIT` or
`OFFSET` (`none`, which the route's catch turns into a 500); otherwise the
slice of the ordered rows. -/
def pgSelectPage (rows : List RatingRecord) (limit offset : ℤ) :
    Option (List RatingRecord) :=
  if limit < 0 || offset < 0 then none
  else some ((rows.drop offset.toNat).take limit.toNat)

/-- Number of rows with star value `k` (one bucket of the distribution
histogram). -/
def starCount (l : List ℕ) (k : ℕ) : ℕ := (l.filter (fun x => x == k)).length

/-- Response classes of `GET /api/ratings/:userId`.  The success payload
carries the page of rows, the total count, the display average
(`parseFloat(avg || 0).toFixed(1)`), the distribution histogram as the counts
for 5,4,3,2,1 stars in source order, and the pagination object. -/
inductive GetRatingsOutcome where
  | userNotFound : GetRatingsOutcome
  | internalError : GetRatingsOutcome
  | ok : List RatingRecord → ℕ → JsNum → ℕ × ℕ × ℕ × ℕ × ℕ → PageInfo →
      GetRatingsOutcome
deriving Repr, DecidableEq

/-- `GET /api/ratings/:userId` from the raw-SQL ratings router: query
parameters default to `page = 1`, `limit = 10` when absent and are used
without normalization; `offset = (page - 1) * limit`; active-user check (404);
page of rows ordered newest first; stats and pagination with
`totalPages = Math.ceil(total / limit)`. -/
def getUserRatingsRoute (userId : ℕ) (pageQ limitQ : Option ℤ)
    (s : ServerState) : GetRatingsOutcome :=
  let page := pageQ.getD 1
  let limit := limitQ.getD 10
  let offset := (page - 1) * limit
  if (s.users.filter (fun u => u.id == userId && u.active)).isEmpty then
    .userNotFound
  else
    let rows := (s.ratings.filter (fun r => r.ratedUserId == userId)).reverse
    match pgSelectPage rows limit offset with
    | none => .internalError
    | some pageRows =>
      let stars := rows.map (fun r => r.rating)
      .ok pageRows rows.length
        (toFixed1 (JsNum.val ((sqlAvg stars).getD 0)))
        (starCount stars 5, starCount stars 4, starCount stars 3,
         starCount stars 2, starCount stars 1)
        { page := page, limit := limit, total := rows.length,
          totalPages := jsCeilDiv (rows.length : ℤ) limit }

/-- The `pagination` object of a success response, `none` on an error
response. -/
def GetRatingsOutcome.pageInfo : GetRatingsOutcome → Option PageInfo
  | .ok _ _ _ _ pg => some pg
  | _ => none

/-- The page of rating rows of a success response, `none` on an error
response. -/
def GetRatingsOutcome.pageRows : GetRatingsOutcome → Option (List RatingRecord)
  | .ok rs _ _ _ _ => some rs
  | _ => none

/-! ### Concrete fixtures used by witnesses and counterexamples -/

/-- An ordinary active user, id 1. -/
def exUser1 : UserRow :=
  { id := 1, role := "user", active := true, averageRating := .val 0,
    totalRatings := 0 }

/-- An ordinary active user, id 2, the usual rating target. -/
def exUser2 : UserRow :=
  { id := 2, role := "user", active := true, averageRating := .val 0,
    totalRatings := 0 }

/-- An ordinary active user, id 3, neither admin nor owner of anything. -/
def exUser3 : UserRow :=
  { id := 3, role := "user", active := true, averageRating := .val 0,
    totalRatings := 0 }

/-- An administrator, id 9. -/
def exAdmin : UserRow :=
  { id := 9, role := "admin", active := true, averageRating := .val 0,
    totalRatings := 0 }

/-- A deactivated user, id 4. -/
def exInactive : UserRow :=
  { id := 4, role := "user", active := false, averageRating := .val 0,
    totalRatings := 0 }

/-- A ledger row: user 1 rated user 2 with 4 stars, no skill scope, id 0. -/
def exRating12 : RatingRecord :=
  { id := 0, raterId := 1, ratedUserId := 2, skillId := none, rating := 4,
    comment := none }

/-- A ledger row: user 1 rated user 2 with 3 stars, scoped to skill 3, id 0. -/
def exRatingSk3 : RatingRecord :=
  { id := 0, raterId := 1, ratedUserId := 2, skillId := some 3, rating := 3,
    comment := none }

/-- A rating request: 5 stars for user 2, no skill scope. -/
def exBody5 : SeqRatingBody :=
  { ratedUserId := 2, skillId := none, rating := 5, comment := none }

/-- A rating request: 5 stars for user 2, scoped to skill 7. -/
def exBodySk7 : SeqRatingBody :=
  { ratedUserId := 2, skillId := some 7, rating := 5, comment := none }

/-- A raw-SQL rating request: 5 stars for user 2. -/
def exPgBody5 : PgRatingBody :=
  { rated_user_id := 2, rating := 5, comment := none }

/-- Fresh store: the example users, empty ledger. -/
def exState0 : ServerState :=
  { users := [exUser1, exUser2, exUser3, exAdmin, exInactive],
    skills := [3, 7], ratings := [], nextRatingId := 0 }

/-- Store holding the unscoped rating of user 2 by user 1. -/
def exStateR : ServerState :=
  { exState0 with ratings := [exRating12], nextRatingId := 1 }

/-- Store holding the skill-3-scoped rating of user 2 by user 1. -/
def exStateSk : ServerState :=
  { exState0 with ratings := [exRatingSk3], nextRatingId := 1 }

/-- Store whose users table lacks user 2 (and any active rating target
besides user 1). -/
def exStateNoTarget : ServerState :=
  { users := [exUser1], skills := [], ratings := [], nextRatingId := 0 }

/-! ### Helper lemmas -/

/-- `updateUserAverageRating` does not touch the ratings ledger. -/
theorem updateUserAverageRating_ratings (userId : ℕ) (s : ServerState) :
    (updateUserAverageRating userId s).ratings = s.ratings := rfl

/-- After `updateUserAverageRating userId`, the first user row with the given
id carries exactly the recomputed summary: `COUNT` of the user's ledger rows
and `parseFloat(AVG).toFixed(2)`. -/
theorem updateUserAverageRating_summary (userId : ℕ) (s : ServerState)
    (h : ∃ u ∈ s.users, u.id = userId) :
    (((updateUserAverageRating userId s).users.find?
        (fun u => u.id == userId)).map
      (fun u => (u.totalRatings, u.averageRating))) =
      some ((ratingsFor s userId).length,
        toFixed2 (parseFloatOpt (sqlAvg (ratingsFor s userId)))) := by
  obtain ⟨u, hu, hid⟩ := h
  unfold updateUserAverageRating
  rw [List.find?_map]
  have hpred : ((fun v : UserRow => v.id == userId) ∘
      (fun v : UserRow =>
        if v.id == userId then
          { v with
            averageRating :=
              toFixed2 (parseFloatOpt (sqlAvg (ratingsFor s userId))),
            totalRatings := (ratingsFor s userId).length }
        else v)) = (fun v : UserRow => v.id == userId) := by
    funext v
    by_cases hv : v.id = userId
    · simp [hv]
    · simp [hv]
  rw [hpred]
  have hsome : (s.users.find? (fun v : UserRow => v.id == userId)).isSome :=
    List.find?_isSome.mpr ⟨u, hu, by simp [hid]⟩
  obtain ⟨v, hv⟩ := Option.isSome_iff_exists.mp hsome
  have hvid := List.find?_some hv
  have hv2 : v.id = userId := by simpa using hvid
  rw [hv]
  simp [hv2]

/-- `deleteRatingRoute` never touches the users table (and hence no stored
summary). -/
theorem deleteRatingRoute_users (user : UserRow) (id : ℕ) (s : ServerState) :
    ((deleteRatingRoute user id s).2).users = s.users := by
  unfold deleteRatingRoute
  cases hf : s.ratings.find? (fun r => r.id == id) with
  | none => rfl
  | some r =>
    by_cases hp : (user.role != "admin" && r.raterId != user.id) = true
    · simp [hp]
    · simp [hp]

/-- A delete for an id absent from the ledger is a 404 with the state left
untouched. -/
theorem deleteRatingRoute_notFound (user : UserRow) (id : ℕ) (s : ServerState)
    (h : ∀ r ∈ s.ratings, r.id ≠ id) :
    deleteRatingRoute user id s = (.notFound, s) := by
  have hf : s.ratings.find? (fun r => r.id == id) = none :=
    List.find?_eq_none.mpr (fun x hx => by simpa using h x hx)
  simp [deleteRatingRoute, hf]

/-- A successful `Rating.create` leaves the users table unchanged. -/
theorem ratingCreate_users (raterId : ℕ) (body : SeqRatingBody)
    (s s2 : ServerState) (h : ratingCreate raterId body s = some s2) :
    s2.users = s.users := by
  rw [ratingCreate] at h
  split at h
  · exact absurd h (by simp)
  · split at h
    · exact absurd h (by simp)
    · split at h
      · exact absurd h (by simp)
      · split at h
        · exact absurd h (by simp)
        · injection h with h2
          subst h2
          rfl

/-- The shared-table insert fails on its unique constraint whenever some row
for the same (rater, ratedUser) pair is already on the ledger, whatever that
row's skill scope — and whether or not an earlier foreign-key check would
have failed too. -/
theorem ratingCreate_unique_conflict (raterId : ℕ) (body : SeqRatingBody)
    (s : ServerState)
    (h : ∃ q ∈ s.ratings, q.raterId = raterId ∧
      q.ratedUserId = body.ratedUserId) :
    ratingCreate raterId body s = none := by
  have hany : (s.ratings.any (fun q => q.raterId == raterId &&
      q.ratedUserId == body.ratedUserId)) = true := by
    obtain ⟨q, hq, h1, h2⟩ := h
    exact List.any_eq_true.mpr ⟨q, hq, by simp [h1, h2]⟩
  rw [ratingCreate]
  split
  · rfl
  · split
    · rfl
    · split
      · rfl
      · simp [pgInsertRating, hany]

/-! ### Claims -/

/-- C4: a rating request whose rater equals the rated user is rejected as
self-rating with no insert and no summary change, regardless of prior state —
in both the Sequelize controller and the raw-SQL route. -/
theorem claim4_theorem :
    (∀ (raterId : ℕ) (body : SeqRatingBody) (s : ServerState),
       body.ratedUserId = raterId →
       createRating raterId body s = (.selfRating, s)) ∧
    (∀ (user : UserRow) (body : PgRatingBody) (s : ServerState),
       user.id = body.rated_user_id →
       createRatingRoute user body s = (.selfRating, s)) := by
  constructor
  · intro raterId body s h
    simp [createRating, h]
  · intro user body s h
    simp [createRatingRoute, createRatingRouteAt, h, PgCreateOutcome.isCreated]

/-- C4 witness: user 2 trying to rate user 2 is rejected on the fresh store by
both stacks. -/
theorem claim4_witness :
    createRating 2 exBody5 exState0 = (.selfRating, exState0) ∧
    createRatingRoute exUser2 exPgBody5 exState0 = (.selfRating, exState0) :=
  ⟨claim4_theorem.1 2 exBody5 exState0 (by decide),
   claim4_theorem.2 exUser2 exPgBody5 exState0 (by decide)⟩

/-- C7: the authorization rule is exactly owner-or-admin — the
`requireOwnerOrAdmin` middleware allows iff the principal is an admin or its
id equals the resource id, and the rating-delete route deletes iff the
principal is an admin or the rating's author; a non-owner non-admin caller
gets the 403 rejection and the whole state, ledger included, is unchanged. -/
theorem claim7_theorem :
    (∀ (role : String) (uid rid : ℕ),
       requireOwnerOrAdmin role uid rid = true ↔
         (role = "admin" ∨ uid = rid)) ∧
    (∀ (user : UserRow) (id : ℕ) (s : ServerState) (r : RatingRecord),
       s.ratings.find? (fun q => q.id == id) = some r →
       (((deleteRatingRoute user id s).1 = .ok) ↔
         (user.role = "admin" ∨ user.id = r.raterId)) ∧
       (¬(user.role = "admin" ∨ user.id = r.raterId) →
         deleteRatingRoute user id s = (.forbidden, s))) := by
  constructor
  · intro role uid rid
    simp [requireOwnerOrAdmin]
  · intro user id s r hf
    have hcond : (user.role != "admin" && r.raterId != user.id) = true ↔
        ¬(user.role = "admin" ∨ user.id = r.raterId) := by
      simp [bne_iff_ne, not_or]
      intro _
      exact ⟨fun h => fun h2 => h h2.symm, fun h => fun h2 => h h2.symm⟩
    by_cases hp : user.role = "admin" ∨ user.id = r.raterId
    · have hc : (user.role != "admin" && r.raterId != user.id) = false := by
        rcases Bool.eq_false_or_eq_true
            (user.role != "admin" && r.raterId != user.id) with h | h
        · exact absurd hp (hcond.mp h)
        · exact h
      constructor
      · simp only [deleteRatingRoute, hf, hc]
        simpa using hp
      · intro hno
        exact absurd hp hno
    · have hc : (user.role != "admin" && r.raterId != user.id) = true :=
        hcond.mpr hp
      constructor
      · simp only [deleteRatingRoute, hf, hc]
        simpa using hp
      · intro _
        simp [deleteRatingRoute, hf, hc]

/-- C7 witness: user 3 (neither admin nor the author, user 1) cannot delete
rating 0; the admin and the author can. -/
theorem claim7_witness :
    (requireOwnerOrAdmin "user" 3 1 = true ↔ ("user" = "admin" ∨ 3 = 1)) ∧
    ((deleteRatingRoute exUser3 0 exStateR).1 = .ok ↔
      (exUser3.role = "admin" ∨ exUser3.id = exRating12.raterId)) ∧
    deleteRatingRoute exUser3 0 exStateR = (.forbidden, exStateR) :=
  ⟨claim7_theorem.1 "user" 3 1,
   (claim7_theorem.2 exUser3 0 exStateR exRating12 (by decide)).1,
   (claim7_theorem.2 exUser3 0 exStateR exRating12 (by decide)).2 (by decide)⟩

/-- C8: deleting a rating id absent from the ledger (never existed or already
deleted) returns the 404 not-found outcome and leaves the whole state — the
ledger and every user row with its stored summary — unchanged; repeating the
delete gives the same result, and a delete id that just succeeded is
not-found on the next attempt. -/
theorem claim8_theorem :
    (∀ (user : UserRow) (id : ℕ) (s : ServerState),
       (∀ r ∈ s.ratings, r.id ≠ id) →
       deleteRatingRoute user id s = (.notFound, s) ∧
       deleteRatingRoute user id ((deleteRatingRoute user id s).2) =
         (.notFound, s)) ∧
    (∀ (u1 u2 : UserRow) (id : ℕ) (s : ServerState),
       (deleteRatingRoute u1 id s).1 = .ok →
       deleteRatingRoute u2 id ((deleteRatingRoute u1 id s).2) =
         (.notFound, (deleteRatingRoute u1 id s).2)) := by
  constructor
  · intro user id s h
    have h1 : deleteRatingRoute user id s = (.notFound, s) :=
      deleteRatingRoute_notFound user id s h
    refine ⟨h1, ?_⟩
    rw [h1]
    exact deleteRatingRoute_notFound user id s h
  · intro u1 u2 id s h
    have hratings : ((deleteRatingRoute u1 id s).2).ratings =
        s.ratings.filter (fun q => !(q.id == id)) := by
      unfold deleteRatingRoute
      cases hf : s.ratings.find? (fun r => r.id == id) with
      | none =>
        rw [deleteRatingRoute, hf] at h
        simp at h
      | some r =>
        by_cases hp : (u1.role != "admin" && r.raterId != u1.id) = true
        · rw [deleteRatingRoute, hf] at h
          simp [hp] at h
        · simp [hp]
    apply deleteRatingRoute_notFound
    intro x hx
    rw [hratings] at hx
    have := (List.mem_filter.mp hx).2
    simpa using this

/-- C8 witness: deleting id 5 (absent) from the store twice yields 404 twice
with no change; after the admin deletes rating 0, deleting it again is 404. -/
theorem claim8_witness :
    (deleteRatingRoute exAdmin 5 exStateR = (.notFound, exStateR) ∧
     deleteRatingRoute exAdmin 5 ((deleteRatingRoute exAdmin 5 exStateR).2) =
       (.notFound, exStateR)) ∧
    deleteRatingRoute exUser3 0 ((deleteRatingRoute exAdmin 0 exStateR).2) =
      (.notFound, (deleteRatingRoute exAdmin 0 exStateR).2) :=
  ⟨claim8_theorem.1 exAdmin 5 exStateR (by decide),
   claim8_theorem.2 exAdmin exUser3 0 exStateR (by decide)⟩

/-- C3 counterexample: user 1 already has the skill-3-scoped rating of user 2
on file and the requested skill 7 exists; the request scoped to the distinct
skill 7 passes the application-level duplicate check, but the insert then
hits the ratings table's unique constraint on the (rater, ratedUser) pair and
is answered as the generic 500 internal error — it does not succeed as the
claim states. -/
theorem claim3_counterexample :
    (createRating 1 exBodySk7 exStateSk).1 =
      SeqCreateOutcome.internalError := by decide

/-- C3 (amended): once rater R has any rating of T on file, a second unscoped
request by R for T is rejected as a duplicate and inserts nothing; a request
scoped to a skill id distinct from every rating R gave T passes the
application-level duplicate check but then fails on the storage-level
`UNIQUE(reviewer_id, rated_user_id)` constraint and is answered as a generic
500 internal error with the store unchanged; such a scoped request succeeds
only when R has no prior rating of T at all, both users exist and the skill
id resolves. -/
theorem claim3_theorem :
    (∀ (raterId : ℕ) (body : SeqRatingBody) (s : ServerState)
       (r : RatingRecord),
       body.skillId = none → body.ratedUserId ≠ raterId →
       r ∈ s.ratings → r.raterId = raterId →
       r.ratedUserId = body.ratedUserId →
       createRating raterId body s = (.duplicateRating, s)) ∧
    (∀ (raterId : ℕ) (body : SeqRatingBody) (s : ServerState) (sk : ℕ),
       body.skillId = some sk → body.ratedUserId ≠ raterId →
       (∃ r ∈ s.ratings, r.raterId = raterId ∧
          r.ratedUserId = body.ratedUserId) →
       (∀ r ∈ s.ratings, r.raterId = raterId →
          r.ratedUserId = body.ratedUserId → r.skillId ≠ some sk) →
       createRating raterId body s = (.internalError, s)) ∧
    (∀ (raterId : ℕ) (body : SeqRatingBody) (s : ServerState) (sk : ℕ),
       body.skillId = some sk → body.ratedUserId ≠ raterId →
       (∀ r ∈ s.ratings, ¬(r.raterId = raterId ∧
          r.ratedUserId = body.ratedUserId)) →
       (∃ u ∈ s.users, u.id = raterId) →
       (∃ u ∈ s.users, u.id = body.ratedUserId) →
       sk ∈ s.skills →
       (createRating raterId body s).1 = .created s.nextRatingId) := by
  refine ⟨?_, ?_, ?_⟩
  · intro raterId body s r hsk hne hr hr1 hr2
    have hself : (body.ratedUserId == raterId) = false :=
      beq_eq_false_iff_ne.mpr hne
    have hdup : (s.ratings.find? (seqDupMatch raterId body)).isSome = true :=
      List.find?_isSome.mpr ⟨r, hr, by simp [seqDupMatch, hsk, hr1, hr2]⟩
    simp [createRating, hself, hdup]
  · intro raterId body s sk hsk hne hpair hnodup
    have hself : (body.ratedUserId == raterId) = false :=
      beq_eq_false_iff_ne.mpr hne
    have hdup : s.ratings.find? (seqDupMatch raterId body) = none := by
      refine List.find?_eq_none.mpr (fun x hx => ?_)
      simp only [seqDupMatch, hsk, Bool.and_eq_true, beq_iff_eq]
      rintro ⟨⟨hx1, hx2⟩, hx3⟩
      exact hnodup x hx hx1 hx2 hx3
    have hrc : ratingCreate raterId body s = none :=
      ratingCreate_unique_conflict raterId body s hpair
    simp [createRating, hself, hdup, hrc]
  · intro raterId body s sk hsk hne hnopair hrater htarget hskill
    have hself : (body.ratedUserId == raterId) = false :=
      beq_eq_false_iff_ne.mpr hne
    have hdup : s.ratings.find? (seqDupMatch raterId body) = none := by
      refine List.find?_eq_none.mpr (fun x hx => ?_)
      simp only [seqDupMatch, hsk, Bool.and_eq_true, beq_iff_eq]
      rintro ⟨⟨hx1, hx2⟩, hx3⟩
      exact hnopair x hx ⟨hx1, hx2⟩
    have hrater2 : ((s.users.filter (fun u => u.id == raterId)).isEmpty) =
        false := by
      obtain ⟨u, hu, hid⟩ := hrater
      exact List.isEmpty_eq_false.mpr (List.ne_nil_of_mem
        (List.mem_filter.mpr ⟨hu, by simp [hid]⟩))
    have htarget2 : ((s.users.filter
        (fun u => u.id == body.ratedUserId)).isEmpty) = false := by
      obtain ⟨u, hu, hid⟩ := htarget
      exact List.isEmpty_eq_false.mpr (List.ne_nil_of_mem
        (List.mem_filter.mpr ⟨hu, by simp [hid]⟩))
    have hskill2 : ((s.skills.filter (fun k => k == sk)).isEmpty) = false :=
      List.isEmpty_eq_false.mpr (List.ne_nil_of_mem
        (List.mem_filter.mpr ⟨hskill, by simp⟩))
    have hany : (s.ratings.any (fun q => q.raterId == raterId &&
        q.ratedUserId == body.ratedUserId)) = false := by
      rcases Bool.eq_false_or_eq_true (s.ratings.any (fun q =>
          q.raterId == raterId && q.ratedUserId == body.ratedUserId)) with
        h | h
      · obtain ⟨q, hq, hq2⟩ := List.any_eq_true.mp h
        simp only [Bool.and_eq_true, beq_iff_eq] at hq2
        exact absurd hq2 (hnopair q hq)
      · exact h
    simp [createRating, ratingCreate, pgInsertRating, hself, hdup, hsk,
      hrater2, htarget2, hskill2, hany]

/-- C3 witness: with user 1's unscoped rating of user 2 on file a second
unscoped request by 1 for 2 is a duplicate with the store unchanged; with
only the skill-3-scoped rating on file, the request scoped to skill 7 ends as
the 500 internal error with the store unchanged; and on the empty ledger the
skill-7-scoped request is created with the next id. -/
theorem claim3_witness :
    createRating 1 exBody5 exStateR = (.duplicateRating, exStateR) ∧
    createRating 1 exBodySk7 exStateSk = (.internalError, exStateSk) ∧
    (createRating 1 exBodySk7 exState0).1 = .created exState0.nextRatingId :=
  ⟨claim3_theorem.1 1 exBody5 exStateR exRating12 (by decide) (by decide)
      (by decide) (by decide) (by decide),
   claim3_theorem.2.1 1 exBodySk7 exStateSk 7 (by decide) (by decide)
      ⟨exRatingSk3, by decide, by decide, by decide⟩ (by decide),
   claim3_theorem.2.2 1 exBodySk7 exState0 7 (by decide) (by decide)
      (by decide) ⟨exUser1, by decide, by decide⟩
      ⟨exUser2, by decide, by decide⟩ (by decide)⟩

/-- C10: the Sequelize duplicate check is asymmetric in the skill id — an
unscoped request conflicts with any existing rating of the target by the
rater, whatever that rating's skill id, while a scoped request conflicts only
with an existing rating carrying exactly that skill id. -/
theorem claim10_theorem :
    (∀ (raterId : ℕ) (body : SeqRatingBody) (s : ServerState),
       body.skillId = none → body.ratedUserId ≠ raterId →
       ((createRating raterId body s).1 = .duplicateRating ↔
         ∃ r ∈ s.ratings, r.raterId = raterId ∧
           r.ratedUserId = body.ratedUserId)) ∧
    (∀ (raterId : ℕ) (body : SeqRatingBody) (s : ServerState) (sk : ℕ),
       body.skillId = some sk → body.ratedUserId ≠ raterId →
       ((createRating raterId body s).1 = .duplicateRating ↔
         ∃ r ∈ s.ratings, r.raterId = raterId ∧
           r.ratedUserId = body.ratedUserId ∧ r.skillId = some sk)) := by
  have key : ∀ (raterId : ℕ) (body : SeqRatingBody) (s : ServerState),
      body.ratedUserId ≠ raterId →
      ((createRating raterId body s).1 = .duplicateRating ↔
        (s.ratings.find? (seqDupMatch raterId body)).isSome = true) := by
    intro raterId body s hne
    have hself : (body.ratedUserId == raterId) = false :=
      beq_eq_false_iff_ne.mpr hne
    by_cases hd : (s.ratings.find? (seqDupMatch raterId body)).isSome = true
    · simp [createRating, hself, hd]
    · have hd2 : (s.ratings.find? (seqDupMatch raterId body)).isSome = false :=
        Bool.eq_false_iff.mpr hd
      simp only [createRating, hself, hd2, Bool.false_eq_true, if_false]
      constructor
      · intro h
        cases hrc : ratingCreate raterId body s with
        | none =>
          rw [hrc] at h
          exact absurd h (by simp)
        | some inserted =>
          rw [hrc] at h
          exact absurd h (by simp)
      · intro h
        simp at h
  constructor
  · intro raterId body s hsk hne
    rw [key raterId body s hne, List.find?_isSome]
    simp [seqDupMatch, hsk]
  · intro raterId body s sk hsk hne
    rw [key raterId body s hne, List.find?_isSome]
    simp [seqDupMatch, hsk, and_assoc]

/-- C10 witness: with only a skill-3-scoped rating of user 2 by user 1 on
file, an unscoped request by 1 for 2 is a duplicate, while a request scoped
to skill 7 is not. -/
theorem claim10_witness :
    (createRating 1 exBody5 exStateSk).1 = .duplicateRating ∧
    ¬((createRating 1 exBodySk7 exStateSk).1 = .duplicateRating) :=
  ⟨(claim10_theorem.1 1 exBody5 exStateSk (by decide) (by decide)).mpr
      ⟨exRatingSk3, by decide, by decide, by decide⟩,
   fun h =>
     absurd ((claim10_theorem.2 1 exBodySk7 exStateSk 7 (by decide)
       (by decide)).mp h) (by decide)⟩

/-- C5 counterexample: in the Sequelize controller a request whose
`ratedUserId` (2) resolves to no user at all ends in the generic internal
error raised at insert time, not in a target-not-found rejection before the
insert. -/
theorem claim5_counterexample :
    (createRating 1 exBody5 exStateNoTarget).1 =
      SeqCreateOutcome.internalError := by decide

/-- C5 (amended): the raw-SQL `POST /api/ratings` rejects a request whose
`rated_user_id` is not an active user with the 404 target-not-found outcome
before any insert and without side effects; the Sequelize `createRating`
controller performs no target-existence check, and a nonexistent target
surfaces only at insert time as a generic internal error (also without side
effects). -/
theorem claim5_theorem :
    (∀ (user : UserRow) (body : PgRatingBody) (s : ServerState),
       user.id ≠ body.rated_user_id →
       (∀ u ∈ s.users, u.id = body.rated_user_id → u.active = false) →
       createRatingRoute user body s = (.targetNotFound, s)) ∧
    (∀ (raterId : ℕ) (body : SeqRatingBody) (s : ServerState),
       body.ratedUserId ≠ raterId →
       (∀ r ∈ s.ratings, seqDupMatch raterId body r = false) →
       (∀ u ∈ s.users, u.id ≠ body.ratedUserId) →
       createRating raterId body s = (.internalError, s)) := by
  constructor
  · intro user body s hne htarget
    have hself : (user.id == body.rated_user_id) = false :=
      beq_eq_false_iff_ne.mpr hne
    have hfilter : s.users.filter
        (fun u => u.id == body.rated_user_id && u.active) = [] := by
      refine List.filter_eq_nil_iff.mpr (fun u hu => ?_)
      simp only [Bool.and_eq_true, beq_iff_eq]
      rintro ⟨h1, h2⟩
      rw [htarget u hu h1] at h2
      exact absurd h2 (by simp)
    simp [createRatingRoute, createRatingRouteAt, hself, hfilter,
      PgCreateOutcome.isCreated]
  · intro raterId body s hne hnodup htarget
    have hself : (body.ratedUserId == raterId) = false :=
      beq_eq_false_iff_ne.mpr hne
    have hdup : s.ratings.find? (seqDupMatch raterId body) = none :=
      List.find?_eq_none.mpr (fun x hx => by simp [hnodup x hx])
    have htarget2 : ((s.users.filter
        (fun u => u.id == body.ratedUserId)).isEmpty) = true := by
      have hnil : s.users.filter (fun u => u.id == body.ratedUserId) = [] :=
        List.filter_eq_nil_iff.mpr (fun u hu => by simp [htarget u hu])
      simp [hnil]
    have hrc : ratingCreate raterId body s = none := by
      by_cases hr : ((s.users.filter (fun u => u.id == raterId)).isEmpty) =
          true
      · rw [ratingCreate, if_pos hr]
      · rw [ratingCreate, if_neg hr, if_pos htarget2]
    simp [createRating, hself, hdup, hrc]

/-- C5 witness: the raw-SQL route rejects a rating of the deactivated user 4
with 404 and no state change, while the Sequelize controller, asked to rate
the absent user 2, ends in the generic internal error with no state change. -/
theorem claim5_witness :
    createRatingRoute exUser1
        { rated_user_id := 4, rating := 5, comment := none } exState0 =
      (.targetNotFound, exState0) ∧
    createRating 1 exBody5 exStateNoTarget =
      (.internalError, exStateNoTarget) :=
  ⟨claim5_theorem.1 exUser1
      { rated_user_id := 4, rating := 5, comment := none } exState0
      (by decide) (by decide),
   claim5_theorem.2 1 exBody5 exStateNoTarget (by decide) (by decide)
      (by decide)⟩

/-- C2 counterexample: a racing insert commits the `(1, 2)` row between the
read-check (which saw an empty ledger) and the `INSERT`; the unique
constraint fires, and the route answers with the generic 500 internal error,
not with the 409 duplicate rejection the claim asserts. -/
theorem claim2_counterexample :
    createRatingRouteAt exUser1 exPgBody5 [exUser1, exUser2] [] [exRating12]
      1 = (.internalError, [exRating12]) := by decide

/-- C2 (amended): the ratings table's storage-level
`UNIQUE(reviewer_id, rated_user_id)` constraint does make the second of two
racing inserts fail — no row is inserted — but the raised
ConstraintViolation reaches the route's generic catch handler and is
returned as a 500 internal error, not translated to the DuplicateRating
rejection. -/
theorem claim2_theorem :
    ∀ (user : UserRow) (body : PgRatingBody) (users : List UserRow)
      (checkLedger insertLedger : List RatingRecord) (nextId : ℕ),
      user.id ≠ body.rated_user_id →
      (∃ u ∈ users, u.id = body.rated_user_id ∧ u.active = true) →
      (∀ q ∈ checkLedger,
        ¬(q.raterId = user.id ∧ q.ratedUserId = body.rated_user_id)) →
      (∃ q ∈ insertLedger,
        q.raterId = user.id ∧ q.ratedUserId = body.rated_user_id) →
      createRatingRouteAt user body users checkLedger insertLedger nextId =
        (.internalError, insertLedger) := by
  intro user body users checkLedger insertLedger nextId hne htarget hnodup
    hconflict
  have hself : (user.id == body.rated_user_id) = false :=
    beq_eq_false_iff_ne.mpr hne
  have hfilter : (users.filter
      (fun u => u.id == body.rated_user_id && u.active)).isEmpty = false := by
    obtain ⟨u, hu, h1, h2⟩ := htarget
    refine List.isEmpty_eq_false.mpr (List.ne_nil_of_mem
      (List.mem_filter.mpr ⟨hu, ?_⟩))
    simp [h1, h2]
  have hcheck : checkLedger.filter (fun q =>
      q.raterId == user.id && q.ratedUserId == body.rated_user_id) = [] := by
    refine List.filter_eq_nil_iff.mpr (fun q hq => ?_)
    simp only [Bool.and_eq_true, beq_iff_eq]
    rintro ⟨h1, h2⟩
    exact hnodup q hq ⟨h1, h2⟩
  have hinsert : (insertLedger.any (fun q =>
      q.raterId == user.id && q.ratedUserId == body.rated_user_id)) =
      true := by
    obtain ⟨q, hq, h1, h2⟩ := hconflict
    exact List.any_eq_true.mpr ⟨q, hq, by simp [h1, h2]⟩
  simp [createRatingRouteAt, pgInsertRating, hself, hfilter, hcheck, hinsert]

/-- C2 witness: the concrete race — empty ledger at check time, the `(1, 2)`
row committed at insert time — ends in the 500 internal error with the
racing row left as the only one. -/
theorem claim2_witness :
    createRatingRouteAt exUser1 exPgBody5 [exUser1, exUser2] [] [exRating12]
      7 = (.internalError, [exRating12]) :=
  claim2_theorem exUser1 exPgBody5 [exUser1, exUser2] [] [exRating12] 7
    (by decide) ⟨exUser2, by decide, by decide, by decide⟩ (by decide)
    ⟨exRating12, by decide, by decide, by decide⟩

/-- C6: evaluation of the summary recompute at the failing input — a user
(id 2) with zero ledger rows.  The SQL `AVG` over the empty set is NULL,
`parseFloat(null)` is `NaN`, and `updateUserAverageRating` stores
`averageStars = NaN` (with `totalRatings = 0`) instead of the `0` the claim
and the spec require. -/
theorem claim6_theorem :
    (((updateUserAverageRating 2 exState0).users.find?
        (fun u => u.id == 2)).map
      (fun u => (u.averageRating, u.totalRatings))) =
      some (JsNum.nan, 0) ∧
    JsNum.nan ≠ JsNum.val 0 := by decide

/-- C1 counterexample: user 1 rates user 2 (5 stars) through the Sequelize
controller, then the admin deletes that rating through the raw-SQL route.
After the delete the ledger holds no rating of user 2, yet user 2's stored
summary still says `totalRatings = 1`: the delete acknowledged success
without any recompute, so the stored summary does not equal the ledger. -/
theorem claim1_counterexample :
    (deleteRatingRoute exAdmin 0 (createRating 1 exBody5 exState0).2).1 =
      .ok ∧
    (deleteRatingRoute exAdmin 0
        (createRating 1 exBody5 exState0).2).2.ratings = [] ∧
    (((deleteRatingRoute exAdmin 0
        (createRating 1 exBody5 exState0).2).2.users.find?
      (fun u => u.id == 2)).map (fun u => u.totalRatings)) = some 1 := by
  decide

/-- C1 (amended): after every admitted insert through the Sequelize
`createRating` path the target's stored summary is recomputed synchronously
from the ledger before the request is acknowledged — `totalRatings` equals
the count of the target's ledger rows and `averageStars` equals their mean
as stored by `parseFloat(AVG).toFixed(2)`; the rating-delete route, however,
performs no recompute at all: it leaves every user row (hence every stored
summary) untouched, so after an admitted delete the stored summary can
disagree with the ledger. -/
theorem claim1_theorem :
    (∀ (raterId : ℕ) (body : SeqRatingBody) (s : ServerState) (i : ℕ),
       (createRating raterId body s).1 = .created i →
       (∃ u ∈ s.users, u.id = body.ratedUserId) →
       (((createRating raterId body s).2.users.find?
           (fun u => u.id == body.ratedUserId)).map
         (fun u => (u.totalRatings, u.averageRating))) =
         some
           ((ratingsFor (createRating raterId body s).2
               body.ratedUserId).length,
            toFixed2 (parseFloatOpt (sqlAvg
              (ratingsFor (createRating raterId body s).2
                body.ratedUserId))))) ∧
    (∀ (user : UserRow) (id : ℕ) (s : ServerState),
       ((deleteRatingRoute user id s).2).users = s.users) := by
  constructor
  · intro raterId body s i hc hu
    by_cases hself : (body.ratedUserId == raterId) = true
    · rw [createRating, if_pos hself] at hc
      exact absurd hc (by simp)
    · by_cases hdup :
          ((s.ratings.find? (seqDupMatch raterId body)).isSome) = true
      · rw [createRating, if_neg hself, if_pos hdup] at hc
        exact absurd hc (by simp)
      · cases hrc : ratingCreate raterId body s with
        | none =>
          rw [createRating, if_neg hself, if_neg hdup, hrc] at hc
          exact absurd hc (by simp)
        | some inserted =>
          have hstate : (createRating raterId body s).2 =
              updateUserAverageRating body.ratedUserId inserted := by
            rw [createRating, if_neg hself, if_neg hdup, hrc]
          rw [hstate]
          have hu2 : ∃ u ∈ inserted.users, u.id = body.ratedUserId := by
            rw [ratingCreate_users raterId body s inserted hrc]
            exact hu
          have hratings : ratingsFor (updateUserAverageRating
              body.ratedUserId inserted) body.ratedUserId =
              ratingsFor inserted body.ratedUserId := rfl
          rw [hratings]
          exact updateUserAverageRating_summary body.ratedUserId inserted hu2
  · exact deleteRatingRoute_users

/-- C1 witness: on the fresh store, user 1's 5-star rating of user 2 is
acknowledged as created and the stored summary read back immediately equals
the recomputed count and rounded mean over user 2's ledger rows. -/
theorem claim1_witness :
    (((createRating 1 exBody5 exState0).2.users.find?
        (fun u => u.id == 2)).map
      (fun u => (u.totalRatings, u.averageRating))) =
      some ((ratingsFor (createRating 1 exBody5 exState0).2 2).length,
        toFixed2 (parseFloatOpt (sqlAvg
          (ratingsFor (createRating 1 exBody5 exState0).2 2)))) ∧
    ((deleteRatingRoute exAdmin 0 exStateR).2).users = exStateR.users :=
  ⟨claim1_theorem.1 1 exBody5 exState0 0 (by decide) (by decide),
   claim1_theorem.2 exAdmin 0 exStateR⟩

/-- C9 counterexample: `page = 0` is not normalized to 1 — the computed
offset `(0 - 1) * 10 = -10` is handed to the store and the request ends in
the 500 internal error instead of succeeding; and `limit = 0` is not
normalized to a default of 20 — the response's pagination echoes `limit = 0`
(with an unbounded `totalPages`), and the absent-limit default is 10, not
20. -/
theorem claim9_counterexample :
    getUserRatingsRoute 2 (some 0) none exStateR = .internalError ∧
    (getUserRatingsRoute 2 (some 1) (some 0) exStateR).pageInfo =
      some { page := 1, limit := 0, total := 1, totalPages := none } ∧
    (getUserRatingsRoute 2 none none exStateR).pageInfo =
      some { page := 1, limit := 10, total := 1,
             totalPages := jsCeilDiv 1 10 } := by
  refine ⟨by decide, by decide, ?_⟩
  simp [getUserRatingsRoute, pgSelectPage, exStateR, exState0, exRating12,
    exUser1, exUser2, exUser3, exAdmin, exInactive, ratingsFor, starCount,
    sqlAvg, toFixed1, GetRatingsOutcome.pageInfo, jsCeilDiv]

/-- C9 (amended): pagination in `GET /api/ratings/:userId` is offset-based
with `offset = (page - 1) * limit`, where `page` defaults to 1 and `limit`
defaults to 10 only when the query parameter is absent; neither `page < 1`
nor `limit < 1` is normalized — the raw values flow into the offset and the
response (a negative offset then surfaces as a 500 store error, so a success
response implies the offset was nonnegative); `totalPages` equals
`ceil(total / limit)`. -/
theorem claim9_theorem :
    ∀ (userId : ℕ) (pageQ limitQ : Option ℤ) (s : ServerState)
      (pg : PageInfo),
      (getUserRatingsRoute userId pageQ limitQ s).pageInfo = some pg →
      pg.page = pageQ.getD 1 ∧
      pg.limit = limitQ.getD 10 ∧
      pg.total =
        ((s.ratings.filter (fun r => r.ratedUserId == userId)).reverse).length ∧
      pg.totalPages = jsCeilDiv (pg.total : ℤ) (limitQ.getD 10) ∧
      0 ≤ (pageQ.getD 1 - 1) * limitQ.getD 10 ∧
      (getUserRatingsRoute userId pageQ limitQ s).pageRows =
        some ((((s.ratings.filter
            (fun r => r.ratedUserId == userId)).reverse).drop
          ((pageQ.getD 1 - 1) * limitQ.getD 10).toNat).take
          (limitQ.getD 10).toNat) := by
  intro userId pageQ limitQ s pg h
  unfold getUserRatingsRoute at h ⊢
  by_cases hu : ((s.users.filter
      (fun u => u.id == userId && u.active)).isEmpty) = true
  · rw [if_pos hu] at h
    exact absurd h (by simp [GetRatingsOutcome.pageInfo])
  · rw [if_neg hu] at h
    rw [if_neg hu]
    cases hps : pgSelectPage
        ((s.ratings.filter (fun r => r.ratedUserId == userId)).reverse)
        (limitQ.getD 10) ((pageQ.getD 1 - 1) * limitQ.getD 10) with
    | none =>
      simp only [hps] at h
      exact absurd h (by simp [GetRatingsOutcome.pageInfo])
    | some pageRows =>
      simp only [hps] at h ⊢
      have hpg : pg =
          { page := pageQ.getD 1, limit := limitQ.getD 10,
            total := ((s.ratings.filter
              (fun r => r.ratedUserId == userId)).reverse).length,
            totalPages := jsCeilDiv (((s.ratings.filter
              (fun r => r.ratedUserId == userId)).reverse).length : ℤ)
              (limitQ.getD 10) } := by
        simpa [GetRatingsOutcome.pageInfo] using h.symm
      have hbounds : ¬(limitQ.getD 10 < 0 ∨
          (pageQ.getD 1 - 1) * limitQ.getD 10 < 0) := by
        intro hb
        rw [pgSelectPage] at hps
        rw [if_pos (by simpa using hb)] at hps
        exact absurd hps (by simp)
      have hrows : pageRows =
          (((s.ratings.filter
            (fun r => r.ratedUserId == userId)).reverse).drop
            ((pageQ.getD 1 - 1) * limitQ.getD 10).toNat).take
            (limitQ.getD 10).toNat := by
        rw [pgSelectPage] at hps
        rw [if_neg (by simpa using hbounds)] at hps
        exact (Option.some.injEq _ _ ▸ hps).symm
      subst hpg
      refine ⟨rfl, rfl, rfl, rfl, ?_, ?_⟩
      · rcases not_or.mp hbounds with ⟨-, h2⟩
        exact le_of_not_lt h2
      · simp [GetRatingsOutcome.pageRows, hrows]

/-- C9 witness: reading user 2's ratings with no query parameters succeeds,
and the response's pagination carries `page = 1`, `limit = 10`, the ledger
count as total, the ceiling total-pages, a nonnegative offset, and the
drop/take page of rows. -/
theorem claim9_witness :
    ({ page := 1, limit := 10, total := 1,
       totalPages := jsCeilDiv 1 10 } : PageInfo).page = 1 ∧
    ({ page := 1, limit := 10, total := 1,
       totalPages := jsCeilDiv 1 10 } : PageInfo).totalPages =
      jsCeilDiv 1 10 ∧
    (0 : ℤ) ≤ ((1 : ℤ) - 1) * 10 ∧
    (getUserRatingsRoute 2 none none exStateR).pageRows =
      some ((((exStateR.ratings.filter
          (fun r => r.ratedUserId == 2)).reverse).drop
        (((1 : ℤ) - 1) * 10).toNat).take ((10 : ℤ)).toNat) := by
  have h := claim9_theorem 2 none none exStateR
    { page := 1, limit := 10, total := 1, totalPages := jsCeilDiv 1 10 }
    (by
      simp [getUserRatingsRoute, pgSelectPage, exStateR, exState0,
        exRating12, exUser1, exUser2, exUser3, exAdmin, exInactive,
        GetRatingsOutcome.pageInfo, jsCeilDiv])
  exact ⟨h.1, h.2.2.2.1, h.2.2.2.2.1, h.2.2.2.2.2⟩

